import Mathlib

/-!
Shallow embedding of the 0xFund crowdfunding program
(src/program/src/lib.rs) and proofs about its three handlers
(create_campaign, withdraw, donate) and its dispatcher
(process_instruction).

Modelling conventions:
* Pubkey is a Nat (only equality of keys matters to the program).
* u64 values are Nat; every u64 arithmetic operation of the source is
  embedded with an explicit wrap modulo 2^64 (wadd, wsub), matching the
  wrapping semantics of release-mode Rust integer arithmetic, which is
  exactly where the documented underflow concern of the withdraw
  handler lives.
* An account (solana AccountInfo) carries its key, signer flag,
  lamport balance, owner, allocated data length, and its data region.
  The data region is modelled at the level of the borsh-decoded
  CampaignDetails record: Option CampaignDetails, where none stands
  for bytes that do not decode to a record. A serialize step into the
  account succeeds exactly when the borsh-encoded byte size of the
  record (encodedSize) fits the allocated length, mirroring
  serialize into the mutable data slice.
* A Rust panic (the expect calls on borsh decode failures) is the
  distinguished outcome ExecError.fatal: the invocation aborts without
  a typed ProgramError and the host discards all buffered mutations.
* Rent::get().minimum_balance is host state, passed to the handlers as
  an explicit function from the allocated data length to the minimum
  balance.
* Each handler takes the account list and returns either a typed
  failure or the updated account list; positional update mirrors the
  account iterator of the source. Per the ownership model of the spec,
  distinct list entries are assumed not to alias.
-/

namespace ZeroXFund

/-- Wrap bound of u64 arithmetic. -/
def U64 : Nat := 18446744073709551616

/-- Wrapping u64 addition. -/
def wadd (a b : Nat) : Nat := (a + b) % U64

/-- Wrapping u64 subtraction, as release-mode Rust computes a - b on u64. -/
def wsub (a b : Nat) : Nat := (a + (U64 - b % U64)) % U64

/-- The persisted campaign record (struct CampaignDetails, lib.rs lines 74 to 81). -/
structure CampaignDetails where
  admin : Nat
  name : String
  description : String
  image_link : String
  amount_donated : Nat
deriving DecidableEq

/-- The withdraw argument record (struct WithdrawRequest, lib.rs lines 139 to 142). -/
structure WithdrawRequest where
  amount : Nat
deriving DecidableEq

/-- The slice of solana AccountInfo that the program reads or writes. -/
structure AccountInfo where
  key : Nat
  is_signer : Bool
  lamports : Nat
  owner : Nat
  dataLen : Nat
  data : Option CampaignDetails
deriving DecidableEq

/-- The ProgramError values the source can return, plus
MissingRequiredSignature, which the solana error enumeration offers but
this source never returns. -/
inductive ProgramError where
  | invalidInstructionData
  | incorrectProgramId
  | invalidAccountData
  | insufficientFunds
  | notEnoughAccountKeys
  | missingRequiredSignature
  | borshIoError
deriving DecidableEq

/-- Outcome tag of one handler invocation: a typed ProgramError, or a
fatal Rust panic (the expect calls on decode failure), which also
aborts the transaction. -/
inductive ExecError where
  | progError (e : ProgramError)
  | fatal
deriving DecidableEq

/-- Byte length of the borsh encoding of a CampaignDetails record:
32-byte Pubkey, three strings each with a 4-byte length prefix, and an
8-byte u64. -/
def encodedSize (c : CampaignDetails) : Nat :=
  32 + (4 + c.name.utf8ByteSize) + (4 + c.description.utf8ByteSize)
    + (4 + c.image_link.utf8ByteSize) + 8

/-- Embedding of create_campaign (lib.rs lines 82 to 137).
instruction_data is the borsh decode of the payload bytes; none models
bytes on which CampaignDetails try_from_slice fails, which the source
turns into a panic via expect. -/
def create_campaign (program_id : Nat) (rent_minimum_balance : Nat → Nat)
    (accounts : List AccountInfo) (instruction_data : Option CampaignDetails) :
    Except ExecError (List AccountInfo) :=
  match accounts with
  | writing_account :: creator_account :: rest =>
    if creator_account.is_signer = false then
      .error (.progError .incorrectProgramId)
    else if writing_account.owner ≠ program_id then
      .error (.progError .incorrectProgramId)
    else
      match instruction_data with
      | none => .error .fatal
      | some input_data =>
        if input_data.admin ≠ creator_account.key then
          .error (.progError .invalidInstructionData)
        else
          let rent_exemption := rent_minimum_balance writing_account.dataLen
          if writing_account.lamports < rent_exemption then
            .error (.progError .insufficientFunds)
          else
            let record := {input_data with amount_donated := 0}
            if encodedSize record ≤ writing_account.dataLen then
              .ok ({writing_account with data := some record} :: creator_account :: rest)
            else
              .error (.progError .borshIoError)
  | _ => .error (.progError .notEnoughAccountKeys)

/-- Embedding of withdraw (lib.rs lines 143 to 188). The stored
campaign record is read from the writing account data; the funds check
and both balance updates use wrapping u64 arithmetic exactly as the
source subtraction and compound assignments do. -/
def withdraw (program_id : Nat) (rent_minimum_balance : Nat → Nat)
    (accounts : List AccountInfo) (instruction_data : Option WithdrawRequest) :
    Except ExecError (List AccountInfo) :=
  match accounts with
  | writing_account :: admin_account :: rest =>
    if writing_account.owner ≠ program_id then
      .error (.progError .incorrectProgramId)
    else if admin_account.is_signer = false then
      .error (.progError .incorrectProgramId)
    else
      match writing_account.data with
      | none => .error .fatal
      | some campaign_data =>
        if campaign_data.admin ≠ admin_account.key then
          .error (.progError .invalidAccountData)
        else
          match instruction_data with
          | none => .error .fatal
          | some input_data =>
            let rent_exemption := rent_minimum_balance writing_account.dataLen
            if wsub writing_account.lamports rent_exemption < input_data.amount then
              .error (.progError .insufficientFunds)
            else
              .ok ({writing_account with lamports := wsub writing_account.lamports input_data.amount}
                   :: {admin_account with lamports := wadd admin_account.lamports input_data.amount}
                   :: rest)
  | _ => .error (.progError .notEnoughAccountKeys)

/-- Embedding of donate (lib.rs lines 190 to 223). The record update,
the credit of the writing account and the zeroing of the staging
account follow the source order; the final serialize back into the
writing account succeeds exactly when the record fits the allocated
length. -/
def donate (program_id : Nat) (accounts : List AccountInfo)
    (_instruction_data : List Nat) : Except ExecError (List AccountInfo) :=
  match accounts with
  | writing_account :: donator_program_account :: donator :: rest =>
    if writing_account.owner ≠ program_id then
      .error (.progError .incorrectProgramId)
    else if donator_program_account.owner ≠ program_id then
      .error (.progError .incorrectProgramId)
    else if donator.is_signer = false then
      .error (.progError .incorrectProgramId)
    else
      match writing_account.data with
      | none => .error .fatal
      | some campaign_data =>
        let new_record := {campaign_data with
          amount_donated := wadd campaign_data.amount_donated donator_program_account.lamports}
        let new_writing := {writing_account with
          lamports := wadd writing_account.lamports donator_program_account.lamports}
        let new_staging := {donator_program_account with lamports := 0}
        if encodedSize new_record ≤ new_writing.dataLen then
          .ok ({new_writing with data := some new_record} :: new_staging :: donator :: rest)
        else
          .error (.progError .borshIoError)
  | _ => .error (.progError .notEnoughAccountKeys)

/-- Routing decision of the dispatcher: which handler receives which
payload slice, or the InvalidInstructionData failure. -/
inductive Routed where
  | toCreate (payload : List Nat)
  | toWithdraw (payload : List Nat)
  | toDonate (payload : List Nat)
  | invalidInstructionData
deriving DecidableEq

/-- Embedding of the dispatch logic of process_instruction (lib.rs
lines 16 to 67): empty instruction data fails, otherwise the first
byte selects the handler and the remaining bytes are its payload. -/
def process_instruction (instruction_data : List Nat) : Routed :=
  match instruction_data with
  | [] => .invalidInstructionData
  | opcode :: rest =>
    if opcode = 0 then .toCreate rest
    else if opcode = 1 then .toWithdraw rest
    else if opcode = 2 then .toDonate rest
    else .invalidInstructionData

theorem wsub_eq_sub (a b : Nat) (hba : b ≤ a) (ha : a < U64) : wsub a b = a - b := by
  simp only [wsub, U64] at *
  omega

theorem wadd_eq_add (a b : Nat) (h : a + b < U64) : wadd a b = a + b := by
  simp only [wadd, U64] at *
  omega

/-- Inversion of a successful withdraw run: every check passed and the
output is the positional update of the first two accounts. -/
theorem withdraw_ok_inv (program_id : Nat) (rent_minimum_balance : Nat → Nat)
    (w adm : AccountInfo) (rest out : List AccountInfo) (instr : Option WithdrawRequest)
    (h : withdraw program_id rent_minimum_balance (w :: adm :: rest) instr = .ok out) :
    ∃ c req, w.data = some c ∧ instr = some req ∧ w.owner = program_id ∧
      adm.is_signer = true ∧ c.admin = adm.key ∧
      ¬ (wsub w.lamports (rent_minimum_balance w.dataLen) < req.amount) ∧
      out = {w with lamports := wsub w.lamports req.amount}
            :: {adm with lamports := wadd adm.lamports req.amount} :: rest := by
  rcases hd : w.data with _ | c
  · simp only [withdraw, hd] at h
    split_ifs at h
  · rcases hi : instr with _ | req
    · simp only [withdraw, hd, hi] at h
      split_ifs at h
    · simp only [withdraw, hd, hi] at h
      split_ifs at h with h1 h2 h3 h4
      exact ⟨c, req, rfl, rfl, not_ne_iff.mp h1,
        by revert h2; cases adm.is_signer <;> simp,
        not_ne_iff.mp h3, h4, (Except.ok.inj h).symm⟩

/-- Inversion of a successful create_campaign run. -/
theorem create_ok_inv (program_id : Nat) (rent_minimum_balance : Nat → Nat)
    (w cr : AccountInfo) (rest out : List AccountInfo) (instr : Option CampaignDetails)
    (h : create_campaign program_id rent_minimum_balance (w :: cr :: rest) instr = .ok out) :
    ∃ input, instr = some input ∧ cr.is_signer = true ∧ w.owner = program_id ∧
      input.admin = cr.key ∧ rent_minimum_balance w.dataLen ≤ w.lamports ∧
      encodedSize {input with amount_donated := 0} ≤ w.dataLen ∧
      out = {w with data := some {input with amount_donated := 0}} :: cr :: rest := by
  rcases hi : instr with _ | input
  · simp only [create_campaign, hi] at h
    split_ifs at h
  · simp only [create_campaign, hi] at h
    split_ifs at h with h1 h2 h3 h4 h5
    exact ⟨input, rfl,
      by revert h1; cases cr.is_signer <;> simp,
      not_ne_iff.mp h2, not_ne_iff.mp h3, Nat.not_lt.mp h4, h5,
      (Except.ok.inj h).symm⟩

/-- Inversion of a successful donate run. -/
theorem donate_ok_inv (program_id : Nat) (w dpa dn : AccountInfo)
    (rest out : List AccountInfo) (l : List Nat)
    (h : donate program_id (w :: dpa :: dn :: rest) l = .ok out) :
    ∃ c, w.data = some c ∧ w.owner = program_id ∧ dpa.owner = program_id ∧
      dn.is_signer = true ∧
      encodedSize {c with amount_donated := wadd c.amount_donated dpa.lamports} ≤ w.dataLen ∧
      out = {w with lamports := wadd w.lamports dpa.lamports,
                    data := some {c with amount_donated := wadd c.amount_donated dpa.lamports}}
            :: {dpa with lamports := 0} :: dn :: rest := by
  rcases hd : w.data with _ | c
  · simp only [donate, hd] at h
    split_ifs at h
  · simp only [donate, hd] at h
    split_ifs at h with h1 h2 h3 h4
    exact ⟨c, rfl, not_ne_iff.mp h1, not_ne_iff.mp h2,
      by revert h3; cases dn.is_signer <;> simp,
      h4, (Except.ok.inj h).symm⟩

/-- Claim C1: the withdraw funds check is supposed to return
InsufficientFunds with no balance change whenever the requested amount
exceeds balance minus the rent-exemption minimum, including every case
where the balance is at or below that minimum, without any numeric
wraparound. Evaluated at the failing input (balance 0, rent-exemption
minimum 1000, requested amount 500), the code instead wraps the
subtraction to 18446744073709550616, passes the check, and transfers
500 lamports, wrapping the writing-account balance as well. -/
theorem withdraw_underflow_bug :
    withdraw 7 (fun _ => 1000)
      [⟨1, false, 0, 7, 100, some ⟨9, "", "", "", 0⟩⟩, ⟨9, true, 50, 0, 0, none⟩]
      (some ⟨500⟩) =
      Except.ok [⟨1, false, 18446744073709551116, 7, 100, some ⟨9, "", "", "", 0⟩⟩,
                 ⟨9, true, 550, 0, 0, none⟩] ∧
    (18446744073709551116 : Nat) ≠ 0 :=
  ⟨rfl, by decide⟩

/-- Claim C2 counterexample: the donate handler zeroes the staging
account, and nothing stops the staging account from being a campaign
account itself (program-owned, holding a decoded record). Here the
staging campaign account starts at 5000 lamports, at or above its
rent-exemption minimum of 1000, and donate reduces it to 0, below that
minimum. -/
theorem donate_zeroes_staging_campaign :
    donate 7
      [⟨1, false, 2000, 7, 100, some ⟨9, "", "", "", 0⟩⟩,
       ⟨2, false, 5000, 7, 100, some ⟨3, "", "", "", 0⟩⟩,
       ⟨3, true, 0, 0, 0, none⟩] [] =
      Except.ok [⟨1, false, 7000, 7, 100, some ⟨9, "", "", "", 5000⟩⟩,
                 ⟨2, false, 0, 7, 100, some ⟨3, "", "", "", 0⟩⟩,
                 ⟨3, true, 0, 0, 0, none⟩] ∧
    (1000 : Nat) ≤ 5000 ∧ (0 : Nat) < 1000 :=
  ⟨rfl, by decide, by decide⟩

/-- Claim C2, amended: the writing campaign account is never reduced
below the rent-exemption minimum by any of the three handlers: a
successful create leaves its balance unchanged at or above the
minimum, a successful withdraw from a balance at or above the minimum
stays at or above the minimum, and a successful donate without u64
overflow never decreases it. The original claim fails only through the
staging account that donate zeroes. -/
theorem rent_floor_amended :
    (∀ program_id rent w cr rest instr out,
      create_campaign program_id rent (w :: cr :: rest) instr = Except.ok out →
      ∃ w2 tl, out = w2 :: tl ∧ w2.lamports = w.lamports ∧
        rent w.dataLen ≤ w2.lamports) ∧
    (∀ program_id rent w adm rest instr out, w.lamports < U64 →
      rent w.dataLen ≤ w.lamports →
      withdraw program_id rent (w :: adm :: rest) instr = Except.ok out →
      ∃ w2 tl, out = w2 :: tl ∧ rent w.dataLen ≤ w2.lamports) ∧
    (∀ program_id w dpa dn rest l out, w.lamports + dpa.lamports < U64 →
      donate program_id (w :: dpa :: dn :: rest) l = Except.ok out →
      ∃ w2 tl, out = w2 :: tl ∧ w.lamports ≤ w2.lamports) := by
  refine ⟨?_, ?_, ?_⟩
  · intro program_id rent w cr rest instr out h
    obtain ⟨input, _, _, _, _, hr, _, hout⟩ :=
      create_ok_inv program_id rent w cr rest out instr h
    exact ⟨_, _, hout, rfl, hr⟩
  · intro program_id rent w adm rest instr out hlt hrent h
    obtain ⟨c, req, _, _, _, _, _, hcond, hout⟩ :=
      withdraw_ok_inv program_id rent w adm rest out instr h
    rw [wsub_eq_sub _ _ hrent hlt] at hcond
    refine ⟨_, _, hout, ?_⟩
    have hamt : req.amount ≤ w.lamports := by omega
    show rent w.dataLen ≤ wsub w.lamports req.amount
    rw [wsub_eq_sub _ _ hamt hlt]
    omega
  · intro program_id w dpa dn rest l out hof h
    obtain ⟨c, _, _, _, _, _, hout⟩ :=
      donate_ok_inv program_id w dpa dn rest out l h
    refine ⟨_, _, hout, ?_⟩
    show w.lamports ≤ wadd w.lamports dpa.lamports
    rw [wadd_eq_add _ _ hof]
    omega

/-- Claim C2 amended, witness: the three conjuncts instantiated at
concrete successful runs of create, withdraw and donate. -/
theorem rent_floor_amended_witness :
    (∃ w2 tl, ([⟨5, false, 2000, 7, 100, some ⟨2, "", "", "", 0⟩⟩,
                ⟨2, true, 0, 0, 0, none⟩] : List AccountInfo) = w2 :: tl ∧
      w2.lamports = 2000 ∧ 1000 ≤ w2.lamports) ∧
    (∃ w2 tl, ([⟨1, false, 2000, 7, 100, some ⟨9, "", "", "", 0⟩⟩,
                ⟨9, true, 3010, 0, 0, none⟩] : List AccountInfo) = w2 :: tl ∧
      1000 ≤ w2.lamports) ∧
    (∃ w2 tl, ([⟨1, false, 7000, 7, 100, some ⟨9, "", "", "", 5000⟩⟩,
                ⟨2, false, 0, 7, 100, some ⟨3, "", "", "", 0⟩⟩,
                ⟨3, true, 0, 0, 0, none⟩] : List AccountInfo) = w2 :: tl ∧
      2000 ≤ w2.lamports) :=
  ⟨rent_floor_amended.1 7 (fun _ => 1000)
      ⟨5, false, 2000, 7, 100, some ⟨1, "", "", "", 0⟩⟩ ⟨2, true, 0, 0, 0, none⟩
      [] (some ⟨2, "", "", "", 0⟩) _ rfl,
   rent_floor_amended.2.1 7 (fun _ => 1000)
      ⟨1, false, 5000, 7, 100, some ⟨9, "", "", "", 0⟩⟩ ⟨9, true, 10, 0, 0, none⟩
      [] (some ⟨3000⟩) _ (by decide) (by decide) rfl,
   rent_floor_amended.2.2 7
      ⟨1, false, 2000, 7, 100, some ⟨9, "", "", "", 0⟩⟩
      ⟨2, false, 5000, 7, 100, some ⟨3, "", "", "", 0⟩⟩
      ⟨3, true, 0, 0, 0, none⟩ [] [] _ (by decide) rfl⟩

/-- Claim C3 counterexample: the stored admin is not immutable
post-creation, because create_campaign never checks whether the
writing account already holds a record. Here the account holds a
created record with admin 1; a second create invocation signed by key
2 with payload admin 2 succeeds and overwrites the stored admin with
2. -/
theorem create_overwrites_admin :
    create_campaign 7 (fun _ => 1000)
      [⟨5, false, 2000, 7, 100, some ⟨1, "", "", "", 0⟩⟩, ⟨2, true, 0, 0, 0, none⟩]
      (some ⟨2, "", "", "", 0⟩) =
      Except.ok [⟨5, false, 2000, 7, 100, some ⟨2, "", "", "", 0⟩⟩,
                 ⟨2, true, 0, 0, 0, none⟩] ∧
    (2 : Nat) ≠ 1 :=
  ⟨rfl, by decide⟩

/-- Claim C3, amended: withdraw leaves the stored record bytes, and in
particular the stored admin, completely unchanged, and donate
preserves the stored admin; only a repeated create invocation, which
the code does not prevent, can overwrite the stored admin. -/
theorem admin_immutable_amended :
    (∀ program_id rent w adm rest instr out,
      withdraw program_id rent (w :: adm :: rest) instr = Except.ok out →
      ∃ w2 tl, out = w2 :: tl ∧ w2.data = w.data) ∧
    (∀ program_id w dpa dn rest l c out, w.data = some c →
      donate program_id (w :: dpa :: dn :: rest) l = Except.ok out →
      ∃ c2 w2 tl, out = w2 :: tl ∧ w2.data = some c2 ∧ c2.admin = c.admin) := by
  refine ⟨?_, ?_⟩
  · intro program_id rent w adm rest instr out h
    obtain ⟨c, req, hd, _, _, _, _, _, hout⟩ :=
      withdraw_ok_inv program_id rent w adm rest out instr h
    exact ⟨_, _, hout, rfl⟩
  · intro program_id w dpa dn rest l c out hd h
    obtain ⟨c0, hd0, _, _, _, _, hout⟩ :=
      donate_ok_inv program_id w dpa dn rest out l h
    obtain rfl : c0 = c := Option.some.inj (hd0.symm.trans hd)
    exact ⟨_, _, _, hout, rfl, rfl⟩

/-- Claim C3 amended, witness: the two conjuncts instantiated at
concrete successful withdraw and donate runs. -/
theorem admin_immutable_amended_witness :
    (∃ w2 tl, ([⟨1, false, 2000, 7, 100, some ⟨9, "", "", "", 0⟩⟩,
                ⟨9, true, 3010, 0, 0, none⟩] : List AccountInfo) = w2 :: tl ∧
      w2.data = some ⟨9, "", "", "", 0⟩) ∧
    (∃ c2 w2 tl, ([⟨1, false, 7000, 7, 100, some ⟨9, "", "", "", 5000⟩⟩,
                   ⟨2, false, 0, 7, 100, some ⟨3, "", "", "", 0⟩⟩,
                   ⟨3, true, 0, 0, 0, none⟩] : List AccountInfo) = w2 :: tl ∧
      w2.data = some c2 ∧ c2.admin = 9) :=
  ⟨admin_immutable_amended.1 7 (fun _ => 1000)
      ⟨1, false, 5000, 7, 100, some ⟨9, "", "", "", 0⟩⟩ ⟨9, true, 10, 0, 0, none⟩
      [] (some ⟨3000⟩) _ rfl,
   admin_immutable_amended.2 7
      ⟨1, false, 2000, 7, 100, some ⟨9, "", "", "", 0⟩⟩
      ⟨2, false, 5000, 7, 100, some ⟨3, "", "", "", 0⟩⟩
      ⟨3, true, 0, 0, 0, none⟩ [] [] ⟨9, "", "", "", 0⟩ _ rfl rfl⟩

/-- Claim C4 counterexample: amount_donated is not monotonically
non-decreasing across all post-creation operations, because a repeated
create invocation resets it to 0. Here the stored record has
amount_donated 500 and a second create run by the same admin resets it
to 0. -/
theorem create_resets_amount_donated :
    create_campaign 7 (fun _ => 1000)
      [⟨1, false, 2000, 7, 100, some ⟨9, "", "", "", 500⟩⟩, ⟨9, true, 0, 0, 0, none⟩]
      (some ⟨9, "", "", "", 123⟩) =
      Except.ok [⟨1, false, 2000, 7, 100, some ⟨9, "", "", "", 0⟩⟩,
                 ⟨9, true, 0, 0, 0, none⟩] ∧
    ¬ (500 : Nat) ≤ 0 :=
  ⟨rfl, by decide⟩

/-- Claim C4, amended: withdraw never changes amount_donated, and each
donate whose counter update does not overflow u64 increases
amount_donated by exactly the pre-donation staging balance, hence
never decreases it; only a repeated create invocation, which the code
does not prevent, resets the counter to 0. -/
theorem amount_donated_monotone_amended :
    (∀ program_id rent w adm rest instr c out, w.data = some c →
      withdraw program_id rent (w :: adm :: rest) instr = Except.ok out →
      ∃ w2 tl, out = w2 :: tl ∧ w2.data = some c) ∧
    (∀ program_id w dpa dn rest l c out, w.data = some c →
      c.amount_donated + dpa.lamports < U64 →
      donate program_id (w :: dpa :: dn :: rest) l = Except.ok out →
      ∃ c2 w2 tl, out = w2 :: tl ∧ w2.data = some c2 ∧
        c2.amount_donated = c.amount_donated + dpa.lamports ∧
        c.amount_donated ≤ c2.amount_donated) := by
  refine ⟨?_, ?_⟩
  · intro program_id rent w adm rest instr c out hd h
    obtain ⟨c0, req, hd0, _, _, _, _, _, hout⟩ :=
      withdraw_ok_inv program_id rent w adm rest out instr h
    obtain rfl : c0 = c := Option.some.inj (hd0.symm.trans hd)
    exact ⟨_, _, hout, hd⟩
  · intro program_id w dpa dn rest l c out hd hof h
    obtain ⟨c0, hd0, _, _, _, _, hout⟩ :=
      donate_ok_inv program_id w dpa dn rest out l h
    obtain rfl : c0 = c := Option.some.inj (hd0.symm.trans hd)
    refine ⟨_, _, _, hout, rfl, ?_, ?_⟩
    · show wadd c0.amount_donated dpa.lamports = c0.amount_donated + dpa.lamports
      exact wadd_eq_add _ _ hof
    · show c0.amount_donated ≤ wadd c0.amount_donated dpa.lamports
      rw [wadd_eq_add _ _ hof]
      omega

/-- Claim C4 amended, witness: the two conjuncts instantiated at
concrete successful withdraw and donate runs. -/
theorem amount_donated_monotone_amended_witness :
    (∃ w2 tl, ([⟨1, false, 2000, 7, 100, some ⟨9, "", "", "", 0⟩⟩,
                ⟨9, true, 3010, 0, 0, none⟩] : List AccountInfo) = w2 :: tl ∧
      w2.data = some ⟨9, "", "", "", 0⟩) ∧
    (∃ c2 w2 tl, ([⟨1, false, 7000, 7, 100, some ⟨9, "", "", "", 5000⟩⟩,
                   ⟨2, false, 0, 7, 100, some ⟨3, "", "", "", 0⟩⟩,
                   ⟨3, true, 0, 0, 0, none⟩] : List AccountInfo) = w2 :: tl ∧
      w2.data = some c2 ∧ c2.amount_donated = 0 + 5000 ∧ 0 ≤ c2.amount_donated) :=
  ⟨amount_donated_monotone_amended.1 7 (fun _ => 1000)
      ⟨1, false, 5000, 7, 100, some ⟨9, "", "", "", 0⟩⟩ ⟨9, true, 10, 0, 0, none⟩
      [] (some ⟨3000⟩) ⟨9, "", "", "", 0⟩ _ rfl rfl,
   amount_donated_monotone_amended.2 7
      ⟨1, false, 2000, 7, 100, some ⟨9, "", "", "", 0⟩⟩
      ⟨2, false, 5000, 7, 100, some ⟨3, "", "", "", 0⟩⟩
      ⟨3, true, 0, 0, 0, none⟩ [] [] ⟨9, "", "", "", 0⟩ _ rfl (by decide) rfl⟩

/-- Claim C5 counterexample: with the admin balance at the u64
maximum 18446744073709551615 and a withdrawal of 1 lamport that
passes every check, the wrapping credit leaves the admin balance at 0
instead of increasing it by exactly 1. -/
theorem withdraw_credit_overflow :
    withdraw 7 (fun _ => 1000)
      [⟨1, false, 5000, 7, 100, some ⟨9, "", "", "", 0⟩⟩,
       ⟨9, true, 18446744073709551615, 0, 0, none⟩] (some ⟨1⟩) =
      Except.ok [⟨1, false, 4999, 7, 100, some ⟨9, "", "", "", 0⟩⟩,
                 ⟨9, true, 0, 0, 0, none⟩] ∧
    (0 : Nat) ≠ 18446744073709551615 + 1 :=
  ⟨rfl, by decide⟩

/-- Claim C5, amended: for every withdraw invocation with the
requested amount at most balance minus the rent-exemption minimum,
the admin account a signer whose key equals the stored admin, and the
credited admin balance staying below 2 to the 64, the writing balance
decreases by exactly the amount, the admin balance increases by
exactly the amount, and the stored record is unchanged. -/
theorem withdraw_correct_amended (program_id : Nat) (rent : Nat → Nat)
    (w adm : AccountInfo) (rest : List AccountInfo) (c : CampaignDetails)
    (req : WithdrawRequest)
    (ho : w.owner = program_id) (hs : adm.is_signer = true)
    (hd : w.data = some c) (ha : c.admin = adm.key)
    (hlt : w.lamports < U64)
    (hrent : rent w.dataLen ≤ w.lamports)
    (hamt : req.amount ≤ w.lamports - rent w.dataLen)
    (hof : adm.lamports + req.amount < U64) :
    withdraw program_id rent (w :: adm :: rest) (some req) =
      Except.ok ({w with lamports := w.lamports - req.amount}
                 :: {adm with lamports := adm.lamports + req.amount} :: rest) := by
  have e1 : wsub w.lamports (rent w.dataLen) = w.lamports - rent w.dataLen :=
    wsub_eq_sub _ _ hrent hlt
  have hcond : ¬ (wsub w.lamports (rent w.dataLen) < req.amount) := by
    rw [e1]; omega
  have e2 : wsub w.lamports req.amount = w.lamports - req.amount :=
    wsub_eq_sub _ _ (by omega) hlt
  have e3 : wadd adm.lamports req.amount = adm.lamports + req.amount :=
    wadd_eq_add _ _ hof
  simp [withdraw, ho, hs, hd, ha, hcond, e2, e3]

/-- Claim C5 amended, witness: a concrete in-range withdrawal of 3000
lamports from a balance of 5000 with rent-exemption minimum 1000. -/
theorem withdraw_correct_amended_witness :
    withdraw 7 (fun _ => 1000)
      [⟨1, false, 5000, 7, 100, some ⟨9, "", "", "", 0⟩⟩, ⟨9, true, 10, 0, 0, none⟩]
      (some ⟨3000⟩) =
      Except.ok [⟨1, false, 2000, 7, 100, some ⟨9, "", "", "", 0⟩⟩,
                 ⟨9, true, 3010, 0, 0, none⟩] :=
  withdraw_correct_amended 7 (fun _ => 1000)
    ⟨1, false, 5000, 7, 100, some ⟨9, "", "", "", 0⟩⟩ ⟨9, true, 10, 0, 0, none⟩
    [] ⟨9, "", "", "", 0⟩ ⟨3000⟩ rfl rfl rfl rfl (by decide) (by decide)
    (by decide) (by decide)

/-- Claim C6: for every create invocation where the writing account is
program-owned, the creator is a signer, the decoded payload admin
equals the creator key, the balance is at least the rent-exemption
minimum, and the encoded record fits the allocated data length, the
record written into the account has amount_donated 0 regardless of the
caller-supplied value, every other field equal to the decoded input,
and no account balance changes. -/
theorem create_campaign_correct (program_id : Nat) (rent : Nat → Nat)
    (w cr : AccountInfo) (rest : List AccountInfo) (input : CampaignDetails)
    (hs : cr.is_signer = true) (ho : w.owner = program_id)
    (ha : input.admin = cr.key)
    (hrent : rent w.dataLen ≤ w.lamports)
    (hfit : encodedSize {input with amount_donated := 0} ≤ w.dataLen) :
    create_campaign program_id rent (w :: cr :: rest) (some input) =
      Except.ok ({w with data := some {input with amount_donated := 0}} :: cr :: rest) := by
  have hb : ¬ (w.lamports < rent w.dataLen) := by omega
  have hadm : ¬ (input.admin ≠ cr.key) := by simp [ha]
  simp [create_campaign, hs, ho, hadm, hb, hfit]

/-- Claim C6, witness: a concrete create run where the caller-supplied
amount_donated 99 is forced to 0 and the other fields are kept. -/
theorem create_campaign_correct_witness :
    create_campaign 7 (fun _ => 1000)
      [⟨5, false, 2000, 7, 100, none⟩, ⟨2, true, 0, 0, 0, none⟩]
      (some ⟨2, "a", "b", "c", 99⟩) =
      Except.ok [⟨5, false, 2000, 7, 100, some ⟨2, "a", "b", "c", 0⟩⟩,
                 ⟨2, true, 0, 0, 0, none⟩] :=
  create_campaign_correct 7 (fun _ => 1000)
    ⟨5, false, 2000, 7, 100, none⟩ ⟨2, true, 0, 0, 0, none⟩ []
    ⟨2, "a", "b", "c", 99⟩ rfl rfl rfl (by decide) (by decide)

/-- Claim C7 counterexample: with the stored amount_donated at the u64
maximum 18446744073709551615 and a staging balance of 1, the wrapping
counter update leaves amount_donated at 0 instead of increasing it by
exactly the staging balance. -/
theorem donate_counter_overflow :
    donate 7
      [⟨1, false, 2000, 7, 100, some ⟨9, "", "", "", 18446744073709551615⟩⟩,
       ⟨2, false, 1, 7, 0, none⟩, ⟨3, true, 0, 0, 0, none⟩] [] =
      Except.ok [⟨1, false, 2001, 7, 100, some ⟨9, "", "", "", 0⟩⟩,
                 ⟨2, false, 0, 7, 0, none⟩, ⟨3, true, 0, 0, 0, none⟩] ∧
    (0 : Nat) ≠ 18446744073709551615 + 1 :=
  ⟨rfl, by decide⟩

/-- Claim C7, amended: for every donate invocation where both writing
and staging accounts are program-owned, the donor is a signer, the
writing account holds a decoded record, the updated record fits the
allocated length, and neither the counter update nor the balance
credit overflows u64, the stored amount_donated increases by exactly
the pre-donation staging balance, the staging balance becomes exactly
0, and the writing balance increases by exactly the same amount. -/
theorem donate_correct_amended (program_id : Nat)
    (w dpa dn : AccountInfo) (rest : List AccountInfo) (c : CampaignDetails)
    (l : List Nat)
    (ho : w.owner = program_id) (ho2 : dpa.owner = program_id)
    (hs : dn.is_signer = true) (hd : w.data = some c)
    (hof1 : c.amount_donated + dpa.lamports < U64)
    (hof2 : w.lamports + dpa.lamports < U64)
    (hfit : encodedSize {c with amount_donated := c.amount_donated + dpa.lamports} ≤ w.dataLen) :
    donate program_id (w :: dpa :: dn :: rest) l =
      Except.ok ({w with lamports := w.lamports + dpa.lamports,
                         data := some {c with amount_donated := c.amount_donated + dpa.lamports}}
                 :: {dpa with lamports := 0} :: dn :: rest) := by
  have e1 : wadd c.amount_donated dpa.lamports = c.amount_donated + dpa.lamports :=
    wadd_eq_add _ _ hof1
  have e2 : wadd w.lamports dpa.lamports = w.lamports + dpa.lamports :=
    wadd_eq_add _ _ hof2
  simp [donate, ho, ho2, hs, hd, e1, e2, hfit]

/-- Claim C7 amended, witness: a concrete donation sweeping a staging
balance of 5000 into a campaign with counter 0 and balance 2000. -/
theorem donate_correct_amended_witness :
    donate 7
      [⟨1, false, 2000, 7, 100, some ⟨9, "", "", "", 0⟩⟩,
       ⟨2, false, 5000, 7, 100, some ⟨3, "", "", "", 0⟩⟩,
       ⟨3, true, 0, 0, 0, none⟩] [] =
      Except.ok [⟨1, false, 7000, 7, 100, some ⟨9, "", "", "", 5000⟩⟩,
                 ⟨2, false, 0, 7, 100, some ⟨3, "", "", "", 0⟩⟩,
                 ⟨3, true, 0, 0, 0, none⟩] :=
  donate_correct_amended 7
    ⟨1, false, 2000, 7, 100, some ⟨9, "", "", "", 0⟩⟩
    ⟨2, false, 5000, 7, 100, some ⟨3, "", "", "", 0⟩⟩
    ⟨3, true, 0, 0, 0, none⟩ [] ⟨9, "", "", "", 0⟩ []
    rfl rfl rfl rfl (by decide) (by decide) (by decide)

/-- Claim C8: the dispatcher fails with the InvalidInstructionData
error exactly when the instruction byte sequence is empty or its first
byte is not 0, 1 or 2; otherwise it routes the bytes from offset 1 to
the end, without the opcode byte, to create_campaign for opcode 0,
withdraw for opcode 1, and donate for opcode 2. -/
theorem dispatcher_routing (d : List Nat) :
    (process_instruction d = Routed.invalidInstructionData ↔
      (d = [] ∨ ∃ b t, d = b :: t ∧ b ≠ 0 ∧ b ≠ 1 ∧ b ≠ 2)) ∧
    (∀ t, d = 0 :: t → process_instruction d = Routed.toCreate t) ∧
    (∀ t, d = 1 :: t → process_instruction d = Routed.toWithdraw t) ∧
    (∀ t, d = 2 :: t → process_instruction d = Routed.toDonate t) := by
  rcases d with _ | ⟨b, t⟩
  · simp [process_instruction]
  · by_cases h0 : b = 0 <;> by_cases h1 : b = 1 <;> by_cases h2 : b = 2 <;>
      simp_all [process_instruction]

/-- Claim C8 witness: routing of a concrete donate instruction with
opcode byte 2 and payload byte 5. -/
theorem dispatcher_routing_witness :
    process_instruction [2, 5] = Routed.toDonate [5] :=
  (dispatcher_routing [2, 5]).2.2.2 [5] rfl

/-- Claim C9 counterexample: a withdraw invocation whose writing
account is program-owned but whose admin account is not a signer fails
with IncorrectProgramId, the very same error the handler returns for
an ownership violation, and not with the distinct
MissingRequiredSignature kind the claim requires. The second conjunct
is the same invocation with an ownership violation instead, producing
the identical error value. -/
theorem withdraw_signer_error_kind :
    withdraw 7 (fun _ => 1000)
      [⟨1, false, 5000, 7, 100, some ⟨9, "", "", "", 0⟩⟩, ⟨9, false, 0, 0, 0, none⟩]
      (some ⟨1⟩) = Except.error (ExecError.progError ProgramError.incorrectProgramId) ∧
    withdraw 7 (fun _ => 1000)
      [⟨1, false, 5000, 8, 100, some ⟨9, "", "", "", 0⟩⟩, ⟨9, true, 0, 0, 0, none⟩]
      (some ⟨1⟩) = Except.error (ExecError.progError ProgramError.incorrectProgramId) ∧
    ProgramError.incorrectProgramId ≠ ProgramError.missingRequiredSignature :=
  ⟨rfl, rfl, by decide⟩

/-- Claim C9, amended: for every withdraw invocation in which the
writing account is program-owned and the admin account is not a
signer, the handler fails with IncorrectProgramId, the same error kind
it returns for an ownership violation: the source conflates the signer
failure with the ownership failure instead of returning the distinct
MissingRequiredSignature kind. -/
theorem withdraw_signer_error_amended :
    (∀ program_id rent (w adm : AccountInfo) rest instr, w.owner = program_id →
      adm.is_signer = false →
      withdraw program_id rent (w :: adm :: rest) instr =
        Except.error (ExecError.progError ProgramError.incorrectProgramId)) ∧
    (∀ program_id rent (w adm : AccountInfo) rest instr, w.owner ≠ program_id →
      withdraw program_id rent (w :: adm :: rest) instr =
        Except.error (ExecError.progError ProgramError.incorrectProgramId)) := by
  refine ⟨?_, ?_⟩
  · intro program_id rent w adm rest instr ho hs
    simp [withdraw, ho, hs]
  · intro program_id rent w adm rest instr ho
    simp [withdraw, ho]

/-- Claim C9 amended, witness: the two conjuncts instantiated at the
concrete non-signer and wrong-owner invocations. -/
theorem withdraw_signer_error_amended_witness :
    withdraw 7 (fun _ => 1000)
      [⟨1, false, 5000, 7, 100, some ⟨9, "", "", "", 0⟩⟩, ⟨9, false, 0, 0, 0, none⟩]
      (some ⟨1⟩) = Except.error (ExecError.progError ProgramError.incorrectProgramId) ∧
    withdraw 7 (fun _ => 1000)
      [⟨1, false, 5000, 8, 100, some ⟨9, "", "", "", 0⟩⟩, ⟨9, true, 0, 0, 0, none⟩]
      (some ⟨1⟩) = Except.error (ExecError.progError ProgramError.incorrectProgramId) :=
  ⟨withdraw_signer_error_amended.1 7 (fun _ => 1000)
      ⟨1, false, 5000, 7, 100, some ⟨9, "", "", "", 0⟩⟩ ⟨9, false, 0, 0, 0, none⟩
      [] (some ⟨1⟩) rfl rfl,
   withdraw_signer_error_amended.2 7 (fun _ => 1000)
      ⟨1, false, 5000, 8, 100, some ⟨9, "", "", "", 0⟩⟩ ⟨9, true, 0, 0, 0, none⟩
      [] (some ⟨1⟩) (by decide)⟩

/-- Claim C10: every invocation that supplies fewer accounts than the
handler requires, fewer than 2 for create_campaign or withdraw and
fewer than 3 for donate, fails with NotEnoughAccountKeys, before any
account data or balance is read or mutated: the error is produced by
the account iterator itself and no account in the output differs. -/
theorem too_few_accounts_error (program_id : Nat) (rent : Nat → Nat)
    (accounts : List AccountInfo) (ci : Option CampaignDetails)
    (wi : Option WithdrawRequest) (l : List Nat) :
    (accounts.length < 2 →
      create_campaign program_id rent accounts ci =
        Except.error (ExecError.progError ProgramError.notEnoughAccountKeys) ∧
      withdraw program_id rent accounts wi =
        Except.error (ExecError.progError ProgramError.notEnoughAccountKeys)) ∧
    (accounts.length < 3 →
      donate program_id accounts l =
        Except.error (ExecError.progError ProgramError.notEnoughAccountKeys)) := by
  rcases accounts with _ | ⟨a, _ | ⟨b, _ | ⟨c, rest⟩⟩⟩
  · exact ⟨fun _ => ⟨rfl, rfl⟩, fun _ => rfl⟩
  · exact ⟨fun _ => ⟨rfl, rfl⟩, fun _ => rfl⟩
  · exact ⟨fun h => absurd h (by simp), fun _ => rfl⟩
  · exact ⟨fun h => absurd h (by simp), fun h => absurd h (by simp)⟩

/-- Claim C10 witness: the two conjuncts instantiated at an empty
account list and a two-account list for donate. -/
theorem too_few_accounts_error_witness :
    (create_campaign 7 (fun _ => 1000) [] none =
        Except.error (ExecError.progError ProgramError.notEnoughAccountKeys) ∧
      withdraw 7 (fun _ => 1000) [] none =
        Except.error (ExecError.progError ProgramError.notEnoughAccountKeys)) ∧
    donate 7 [⟨1, false, 0, 7, 0, none⟩, ⟨2, false, 0, 7, 0, none⟩] [] =
      Except.error (ExecError.progError ProgramError.notEnoughAccountKeys) :=
  ⟨(too_few_accounts_error 7 (fun _ => 1000) [] none none []).1 (by decide),
   (too_few_accounts_error 7 (fun _ => 1000)
      [⟨1, false, 0, 7, 0, none⟩, ⟨2, false, 0, 7, 0, none⟩] none none []).2 (by decide)⟩

end ZeroXFund
